import Mathlib

/-!
Verification of the proxy-rotation-with-retry core of a YouTube transcript
HTTP wrapper.  The embedding models `src/main.py` (the `SimpleProxyManager`
class and the `get_transcript` / `list_transcripts` route bodies) and
`src/proxy_manager.py` (the `ProxyManager` class).  External collaborators
(the transcript source operation, the proxy-list providers, the random
choice) are modelled as explicit parameters: the outcome of each external
invocation, the draw stream of the proxy manager, the provider responses.
-/

/-- Boolean prefix test on character lists (first argument is the candidate
prefix of the second). -/
def isPrefixChars : List Char → List Char → Bool
  | [], _ => true
  | _ :: _, [] => false
  | a :: as, b :: bs => a = b && isPrefixChars as bs

/-- Boolean contiguous-substring test on character lists: does the first
list occur inside the second? -/
def containsSub (needle : List Char) : List Char → Bool
  | [] => isPrefixChars needle []
  | c :: rest => isPrefixChars needle (c :: rest) || containsSub needle rest

/-- Model of the Python membership test of strings, as in the source code
line `if "IP" in str(e)`: case-sensitive contiguous substring. -/
def strContains (hay needle : String) : Bool :=
  containsSub needle.toList hay.toList

/-- The IP-block indicator token tested by the source, line 110 of
`main.py`: the literal string `IP`. -/
def ipToken : String := "IP"

/-- Model of the dictionary returned by `get_proxy` in the source,
`{'http': proxy, 'https': proxy}`. -/
structure ProxyDict where
  http : String
  https : String
deriving DecidableEq, Repr

/-- Outcome of one invocation of the external transcript operation
(`YouTubeTranscriptApi.get_transcript` / `.list_transcripts`):
success with a payload, or one of the exception classes the source
distinguishes (`TranscriptsDisabled`, `NoTranscriptFound`, any other
`Exception`), each carrying its textual description `str(e)`. -/
inductive FetchOutcome (α : Type) where
  | success (payload : α)
  | transcriptsDisabled (msg : String)
  | noTranscriptFound (msg : String)
  | otherError (msg : String)
deriving DecidableEq, Repr

/-- Outcome of one route-handler call: a returned value, a raised
`HTTPException status_code detail`, or the Python implicit `None` that
would result if the `for` loop ever completed without returning or
raising (`fellThrough`). -/
inductive ApiResult (α : Type) where
  | ok (value : α)
  | httpError (status : Nat) (detail : String)
  | fellThrough
deriving DecidableEq, Repr

/-- The success body of the `/transcript/{video_id}` route:
`{"video_id": ..., "language": ..., "transcript": ...}`. -/
structure TranscriptResponse (σ : Type) where
  video_id : String
  language : String
  transcript : List σ
deriving DecidableEq, Repr

/-- Trace of one run of a retry loop: the final result, the list of
external invocations (attempt index and the proxies value passed), and
the list of `get_proxy` draws made, in order. -/
structure RunTrace (ρ : Type) where
  result : ρ
  fetchCalls : List (Nat × Option ProxyDict)
  proxyDraws : List (Option ProxyDict)
deriving DecidableEq, Repr

/-- The retry loop of `get_transcript` (`main.py` lines 89–117),
`for attempt in range(3)`.  `fetch i p` is the outcome of the external
invocation at attempt index `i` with proxies value `p`; `draw n` is the
result of the n-th call to `proxy_manager.get_proxy()`.  The loop is
driven by `fuel`, kept equal to `3 - attempt` by the caller, so that the
`fuel = 0` case is exactly the loop running out of its range and the
function body ending without return or raise. -/
def getTranscriptLoop {σ : Type}
    (fetch : Nat → Option ProxyDict → FetchOutcome (List σ))
    (draw : Nat → Option ProxyDict) (video_id language : String) :
    Nat → Nat → Nat → Option ProxyDict →
      RunTrace (ApiResult (TranscriptResponse σ))
  | 0, _, _, _ => ⟨.fellThrough, [], []⟩
  | fuel + 1, attempt, drawCount, proxies =>
    match fetch attempt proxies with
    | .success transcript_list =>
      ⟨.ok ⟨video_id, language, transcript_list⟩, [(attempt, proxies)], []⟩
    | .transcriptsDisabled m => ⟨.httpError 404 m, [(attempt, proxies)], []⟩
    | .noTranscriptFound m => ⟨.httpError 404 m, [(attempt, proxies)], []⟩
    | .otherError m =>
      if strContains m ipToken && decide (attempt < 2) then
        let p := draw drawCount
        let rest := getTranscriptLoop fetch draw video_id language
          fuel (attempt + 1) (drawCount + 1) p
        ⟨rest.result, (attempt, proxies) :: rest.fetchCalls,
          p :: rest.proxyDraws⟩
      else
        ⟨.httpError 404 m, [(attempt, proxies)], []⟩

/-- The `/transcript/{video_id}` handler (`main.py` lines 74–117): one
`get_proxy` draw before the loop, then the 3-attempt retry loop. -/
def get_transcript {σ : Type}
    (fetch : Nat → Option ProxyDict → FetchOutcome (List σ))
    (draw : Nat → Option ProxyDict) (video_id : String)
    (language : String) : RunTrace (ApiResult (TranscriptResponse σ)) :=
  let proxies := draw 0
  let r := getTranscriptLoop fetch draw video_id language 3 0 1 proxies
  ⟨r.result, r.fetchCalls, proxies :: r.proxyDraws⟩

/-- A caption segment as in the end-to-end scenario payload
`{text, start, duration}`; offsets are exact rationals standing for the
float values the code passes through unchanged. -/
structure Segment where
  text : String
  start : Rat
  duration : Rat
deriving DecidableEq, Repr

/-- Outcome of one provider query `requests.get(api, timeout=5)` in
`SimpleProxyManager.refresh_proxies`: either the call raised (network
error, timeout), or it returned a response with a status code and a
body text. -/
inductive ProviderOutcome where
  | raised (msg : String)
  | response (status : Nat) (body : String)
deriving DecidableEq, Repr

/-- Whitespace characters removed by the Python `str.strip()` (the ASCII
ones; the source bodies are plain ASCII proxy lists). -/
def isSpaceChar (c : Char) : Bool :=
  c = ' ' || c = '\t' || c = '\n' || c = '\r' ||
    c = Char.ofNat 11 || c = Char.ofNat 12

/-- Model of Python `str.strip()`: drop leading and trailing whitespace. -/
def pyStrip (l : List Char) : List Char :=
  ((l.dropWhile isSpaceChar).reverse.dropWhile isSpaceChar).reverse

/-- Model of Python `str.split("\r\n")` on character lists: cut at every
occurrence of the two-character separator (`acc` holds the current piece
reversed). -/
def splitCRLF : List Char → List Char → List (List Char)
  | '\r' :: '\n' :: rest, acc => acc.reverse :: splitCRLF rest []
  | c :: rest, acc => splitCRLF rest (c :: acc)
  | [], acc => [acc.reverse]

/-- The parsing of one successful provider body, `main.py` lines 29–33:
`response.text.strip().split("\r\n")`, then each nonempty line holding a
colon is kept as `"http://" + proxy`. -/
def parseProviderBody (body : String) : List String :=
  (splitCRLF (pyStrip body.toList) []).filterMap
    (fun proxyChars =>
      let proxy := String.mk proxyChars
      if proxy ≠ "" ∧ strContains proxy ":" then some ("http://" ++ proxy)
      else none)

/-- The body of the inner `try` of `SimpleProxyManager.refresh_proxies`
(`main.py` lines 27–33) as a fallible computation: the provider request
may raise; on a 200 status the body is parsed into candidates, on any
other status nothing is gathered. -/
def attemptProvider (o : ProviderOutcome) : Except String (List String) :=
  match o with
  | .raised m => .error m
  | .response status body =>
    .ok (if status = 200 then parseProviderBody body else [])

/-- One iteration of the `for api in apis` loop with its inner
`try/except` (`main.py` lines 25–35): a raise is caught and logged and
the pool is left as it stands; parsed candidates are appended
(`self.proxies.append(...)` — the pool is never cleared first). -/
def providerStep (pool : List String) (o : ProviderOutcome) :
    Except String (List String) :=
  match attemptProvider o with
  | .error _ => .ok pool
  | .ok ps => .ok (pool ++ ps)

/-- The body of the outer `try` of `SimpleProxyManager.refresh_proxies`:
the provider loop, threading the pool. -/
def simpleRefreshBody (outcomes : List ProviderOutcome)
    (pool : List String) : Except String (List String) :=
  outcomes.foldlM providerStep pool

/-- `SimpleProxyManager.refresh_proxies` (`main.py` lines 16–39):
the outer `except Exception` catches anything escaping the provider
loop, logs, and leaves the pool as it was. -/
def simple_refresh_proxies (outcomes : List ProviderOutcome)
    (pool : List String) : List String :=
  match simpleRefreshBody outcomes pool with
  | .error _ => pool
  | .ok p => p

/-- Candidates one provider contributes after the inner catch: empty on
a raise or a non-200 status, the parsed list on a 200 response. -/
def providerProxies (o : ProviderOutcome) : List String :=
  match attemptProvider o with
  | .error _ => []
  | .ok ps => ps

/-- Outcome of `FreeProxy(https=True, timeout=1).get_proxy_list()` in
`proxy_manager.py`: raised, or returned a list of proxies. -/
inductive FreeProxyOutcome where
  | raised (msg : String)
  | ok (ps : List String)
deriving DecidableEq, Repr

/-- `ProxyManager.refresh_proxies` (`proxy_manager.py` lines 10–21): on
a raise the exception is caught and the pool kept; on a truthy
(nonempty) returned list the pool is replaced by it; on an empty list
the pool is kept (only a warning is logged). -/
def pm_refresh_proxies (o : FreeProxyOutcome) (pool : List String) :
    List String :=
  match o with
  | .raised _ => pool
  | .ok ps => if ps ≠ [] then ps else pool

/-- `SimpleProxyManager.get_proxy` (`main.py` lines 41–53): if the pool
is empty, refresh once; if still empty return `None`; else return a
random member, modelled by an arbitrary index `pick` reduced modulo the
pool size, wrapped as `{'http': proxy, 'https': proxy}`.  Returns the
result, the pool afterwards, and the number of refreshes triggered. -/
def simple_get_proxy (outcomes : List ProviderOutcome) (pick : Nat)
    (pool : List String) : Option ProxyDict × List String × Nat :=
  let pool1 := if pool = [] then simple_refresh_proxies outcomes pool else pool
  let refreshes := if pool = [] then 1 else 0
  match pool1 with
  | [] => (none, [], refreshes)
  | q :: qs =>
    let proxy := (q :: qs).get
      ⟨pick % (q :: qs).length, Nat.mod_lt _ (Nat.succ_pos _)⟩
    (some ⟨proxy, proxy⟩, q :: qs, refreshes)

/-- `ProxyManager.get_proxy` (`proxy_manager.py` lines 23–35): same
shape as `SimpleProxyManager.get_proxy`, with the FreeProxy-backed
refresh. -/
def pm_get_proxy (o : FreeProxyOutcome) (pick : Nat)
    (pool : List String) : Option ProxyDict × List String × Nat :=
  let pool1 := if pool = [] then pm_refresh_proxies o pool else pool
  let refreshes := if pool = [] then 1 else 0
  match pool1 with
  | [] => (none, [], refreshes)
  | q :: qs =>
    let proxy := (q :: qs).get
      ⟨pick % (q :: qs).length, Nat.mod_lt _ (Nat.succ_pos _)⟩
    (some ⟨proxy, proxy⟩, q :: qs, refreshes)

/-- A translation-target language entry of the external API object:
the two attributes the source reads, `language` and `language_code`
(also the shape of the mapped output dictionaries, line 146). -/
structure TranslationLanguage where
  language : String
  language_code : String
deriving DecidableEq, Repr

/-- A transcript object yielded by the external listing operation, with
the attributes the source reads in lines 141–148; `none` in
`translation_languages` models an object without that attribute
(the `hasattr` test on line 148). -/
structure Transcript where
  language : String
  language_code : String
  is_generated : Bool
  is_translatable : Bool
  translation_languages : Option (List TranslationLanguage)
deriving DecidableEq, Repr

/-- One entry of the `available_transcripts` list built in
`main.py` lines 139–150. -/
structure TranscriptMeta where
  language : String
  language_code : String
  is_generated : Bool
  is_translatable : Bool
  translation_languages : List TranslationLanguage
deriving DecidableEq, Repr

/-- The dictionary comprehension body of `main.py` lines 140–149 for one
transcript object `t`. -/
def metaOfTranscript (t : Transcript) : TranscriptMeta :=
  { language := t.language
    language_code := t.language_code
    is_generated := t.is_generated
    is_translatable := t.is_translatable
    translation_languages :=
      match t.translation_languages with
      | some langs =>
        langs.map (fun lang => ⟨lang.language, lang.language_code⟩)
      | none => [] }

/-- The retry loop of `list_transcripts` (`main.py` lines 130–162).  The
single `except Exception` catches every failure class alike — there is
no separate `TranscriptsDisabled` / `NoTranscriptFound` handler — so all
three failure constructors share one branch. -/
def listTranscriptsLoop
    (fetchList : Nat → Option ProxyDict → FetchOutcome (List Transcript))
    (draw : Nat → Option ProxyDict) :
    Nat → Nat → Nat → Option ProxyDict →
      RunTrace (ApiResult (List TranscriptMeta))
  | 0, _, _, _ => ⟨.fellThrough, [], []⟩
  | fuel + 1, attempt, drawCount, proxies =>
    match fetchList attempt proxies with
    | .success transcript_list =>
      ⟨.ok (transcript_list.map metaOfTranscript), [(attempt, proxies)], []⟩
    | .transcriptsDisabled m | .noTranscriptFound m | .otherError m =>
      if strContains m ipToken && decide (attempt < 2) then
        let p := draw drawCount
        let rest := listTranscriptsLoop fetchList draw
          fuel (attempt + 1) (drawCount + 1) p
        ⟨rest.result, (attempt, proxies) :: rest.fetchCalls,
          p :: rest.proxyDraws⟩
      else
        ⟨.httpError 404 m, [(attempt, proxies)], []⟩

/-- The `/transcripts/{video_id}` handler (`main.py` lines 119–162): one
`get_proxy` draw before the loop, then the 3-attempt retry loop. -/
def list_transcripts
    (fetchList : Nat → Option ProxyDict → FetchOutcome (List Transcript))
    (draw : Nat → Option ProxyDict) :
    RunTrace (ApiResult (List TranscriptMeta)) :=
  let proxies := draw 0
  let r := listTranscriptsLoop fetchList draw 3 0 1 proxies
  ⟨r.result, r.fetchCalls, proxies :: r.proxyDraws⟩

/-- The textual description `str(e)` of a failure outcome (`none` on
success): the common view under which `list_transcripts` handles every
exception class alike. -/
def isFailureMsg {α : Type} : FetchOutcome α → Option String
  | .success _ => none
  | .transcriptsDisabled m => some m
  | .noTranscriptFound m => some m
  | .otherError m => some m

/-- Stub external fetch: two IP-block failures, then success with one
segment.  Used as the concrete instance of the 2-failures-then-success
scenario. -/
def c3Fetch : Nat → Option ProxyDict → FetchOutcome (List Segment) :=
  fun i _ =>
    if i < 2 then .otherError "IP address blocked" else .success [⟨"hi", 0, 1⟩]

/-- Stub proxy draw stream that always yields the same candidate (as
`random.choice` legitimately may). -/
def c3Draw : Nat → Option ProxyDict :=
  fun _ => some ⟨"http://1.1.1.1:80", "http://1.1.1.1:80"⟩

/-- Stub proxy draw stream with pairwise distinct candidates: draw `n`
carries the decimal rendering of `n` as its address. -/
def cDrawDistinct : Nat → Option ProxyDict :=
  fun n => some ⟨Nat.repr n, Nat.repr n⟩

/-- Stub external fetch of the end-to-end scenario: attempt 0 fails with
the IP-block text, every later attempt succeeds with the one-segment
payload. -/
def c8Fetch : Nat → Option ProxyDict → FetchOutcome (List Segment) :=
  fun i _ =>
    if i = 0 then .otherError "Your IP has been blocked"
    else .success [⟨"hi", 0, 1⟩]

/-- Stub draw stream supplying no proxy (the sentinel). -/
def cDrawNone : Nat → Option ProxyDict := fun _ => none

/-- Stub external fetch that fails every attempt with an IP-block
description. -/
def cFetchAllBlocked : Nat → Option ProxyDict → FetchOutcome (List Segment) :=
  fun _ _ => .otherError "IP address blocked"

/-- Stub external fetch failing with `TranscriptsDisabled` on every
attempt. -/
def cFetchDisabled : Nat → Option ProxyDict → FetchOutcome (List Segment) :=
  fun _ _ => .transcriptsDisabled "Subtitles are disabled for this video"

/-- Stub external fetch failing with a generic error whose text does not
contain the IP token. -/
def cFetchNoIp : Nat → Option ProxyDict → FetchOutcome (List Segment) :=
  fun _ _ => .otherError "connection reset"

/-- An unchanged provider response set: one provider answering 200 with
a single proxy line. -/
def c5Outcomes : List ProviderOutcome := [.response 200 "1.2.3.4:80"]

/-- Stub external listing operation: succeeds immediately with one
transcript object carrying no `translation_languages` attribute. -/
def cListOk : Nat → Option ProxyDict → FetchOutcome (List Transcript) :=
  fun _ _ => .success [⟨"English", "en", true, false, none⟩]

/-- Stub external listing operation failing every attempt with a
`NoTranscriptFound`-class error (no IP token in the text). -/
def cListNoTranscript : Nat → Option ProxyDict → FetchOutcome (List Transcript) :=
  fun _ _ => .noTranscriptFound "No transcripts were found"

/-- The retry loop of `get_transcript` makes at most `fuel` external
invocations. -/
theorem getTranscriptLoop_calls_le {σ : Type}
    (fetch : Nat → Option ProxyDict → FetchOutcome (List σ))
    (draw : Nat → Option ProxyDict) (v l : String) :
    ∀ fuel attempt drawCount proxies,
      (getTranscriptLoop fetch draw v l fuel attempt drawCount
        proxies).fetchCalls.length ≤ fuel := by
  intro fuel
  induction fuel with
  | zero => intro a d p; simp [getTranscriptLoop]
  | succ n ih =>
    intro a d p
    simp only [getTranscriptLoop]
    rcases hF : fetch a p with t | m | m | m
    · simp
    · simp
    · simp
    · by_cases hc : (strContains m ipToken && decide (a < 2)) = true
      · simp only [hc, if_true]
        have := ih (a + 1) (d + 1) (draw d)
        simp only [RunTrace.mk.injEq, List.length_cons]
        omega
      · simp [hc]

/-- With positive fuel, the retry loop of `get_transcript` makes at
least one external invocation. -/
theorem getTranscriptLoop_calls_pos {σ : Type}
    (fetch : Nat → Option ProxyDict → FetchOutcome (List σ))
    (draw : Nat → Option ProxyDict) (v l : String) :
    ∀ fuel attempt drawCount proxies,
      1 ≤ (getTranscriptLoop fetch draw v l (fuel + 1) attempt drawCount
        proxies).fetchCalls.length := by
  intro fuel a d p
  simp only [getTranscriptLoop]
  rcases hF : fetch a p with t | m | m | m
  · simp
  · simp
  · simp
  · by_cases hc : (strContains m ipToken && decide (a < 2)) = true
    · simp [hc]
    · simp [hc]

/-- Along the real loop (where the fuel equals `3 - attempt` and some
fuel remains), the retry loop never ends without returning or raising. -/
theorem getTranscriptLoop_ne_fellThrough {σ : Type}
    (fetch : Nat → Option ProxyDict → FetchOutcome (List σ))
    (draw : Nat → Option ProxyDict) (v l : String) :
    ∀ fuel attempt drawCount proxies, 1 ≤ fuel → 3 ≤ fuel + attempt →
      (getTranscriptLoop fetch draw v l fuel attempt drawCount
        proxies).result ≠ .fellThrough := by
  intro fuel
  induction fuel with
  | zero => intro a d p h1 _; exact absurd h1 (by omega)
  | succ n ih =>
    intro a d p _ h3
    simp only [getTranscriptLoop]
    rcases hF : fetch a p with t | m | m | m
    · simp
    · simp
    · simp
    · by_cases hc : (strContains m ipToken && decide (a < 2)) = true
      · simp only [hc, if_true]
        have ha : a < 2 := of_decide_eq_true ((Bool.and_eq_true _ _).mp hc).2
        exact ih (a + 1) (d + 1) (draw d) (by omega) (by omega)
      · simp [hc]

/-- The retry loop of `list_transcripts` makes at most `fuel` external
invocations. -/
theorem listTranscriptsLoop_calls_le
    (fetchList : Nat → Option ProxyDict → FetchOutcome (List Transcript))
    (draw : Nat → Option ProxyDict) :
    ∀ fuel attempt drawCount proxies,
      (listTranscriptsLoop fetchList draw fuel attempt drawCount
        proxies).fetchCalls.length ≤ fuel := by
  intro fuel
  induction fuel with
  | zero => intro a d p; simp [listTranscriptsLoop]
  | succ n ih =>
    intro a d p
    simp only [listTranscriptsLoop]
    rcases hF : fetchList a p with t | m | m | m
    · simp
    all_goals
      by_cases hc : (strContains m ipToken && decide (a < 2)) = true
      · simp only [hc, if_true]
        have := ih (a + 1) (d + 1) (draw d)
        simp only [List.length_cons]
        omega
      · simp [hc]

/-- Along the real loop (fuel equal to `3 - attempt`, some fuel left),
the retry loop of `list_transcripts` never ends without returning or
raising. -/
theorem listTranscriptsLoop_ne_fellThrough
    (fetchList : Nat → Option ProxyDict → FetchOutcome (List Transcript))
    (draw : Nat → Option ProxyDict) :
    ∀ fuel attempt drawCount proxies, 1 ≤ fuel → 3 ≤ fuel + attempt →
      (listTranscriptsLoop fetchList draw fuel attempt drawCount
        proxies).result ≠ .fellThrough := by
  intro fuel
  induction fuel with
  | zero => intro a d p h1 _; exact absurd h1 (by omega)
  | succ n ih =>
    intro a d p _ h3
    simp only [listTranscriptsLoop]
    rcases hF : fetchList a p with t | m | m | m
    · simp
    all_goals
      by_cases hc : (strContains m ipToken && decide (a < 2)) = true
      · simp only [hc, if_true]
        have ha : a < 2 := of_decide_eq_true ((Bool.and_eq_true _ _).mp hc).2
        exact ih (a + 1) (d + 1) (draw d) (by omega) (by omega)
      · simp [hc]

/-- The provider loop of `SimpleProxyManager.refresh_proxies` always
returns normally, and appends each provider's surviving candidates to
the pool in order, independently of the other providers' failures. -/
theorem simpleRefreshBody_eq (outcomes : List ProviderOutcome)
    (pool : List String) :
    simpleRefreshBody outcomes pool =
      .ok (pool ++ (outcomes.map providerProxies).flatten) := by
  induction outcomes generalizing pool with
  | nil => simp [simpleRefreshBody]; rfl
  | cons o os ih =>
    rcases hA : attemptProvider o with m | ps
    · have hstep : simpleRefreshBody (o :: os) pool =
          simpleRefreshBody os pool := by
        simp only [simpleRefreshBody, List.foldlM_cons, providerStep, hA]
        rfl
      rw [hstep, ih]
      simp [providerProxies, hA]
    · have hstep : simpleRefreshBody (o :: os) pool =
          simpleRefreshBody os (pool ++ ps) := by
        simp only [simpleRefreshBody, List.foldlM_cons, providerStep, hA]
        rfl
      rw [hstep, ih]
      simp [providerProxies, hA, List.append_assoc]

/-- C1: for every sequence of outcomes of the external fetch operation,
the `get_transcript` retry loop performs at most 3 external calls and
never ends without an outcome; and for every sequence of 3 consecutive
failures whose text contains the IP-block token, it invokes the external
operation exactly 3 times and terminates with the 404 error carrying the
last error's description. -/
theorem C1_get_transcript_bounded_terminates {σ : Type}
    (fetch : Nat → Option ProxyDict → FetchOutcome (List σ))
    (draw : Nat → Option ProxyDict) (v l : String) :
    (get_transcript fetch draw v l).fetchCalls.length ≤ 3 ∧
    (get_transcript fetch draw v l).result ≠ .fellThrough ∧
    (∀ m : Nat → String,
      (∀ i p, i < 3 → fetch i p = .otherError (m i)) →
      (∀ i, i < 3 → strContains (m i) ipToken = true) →
      (get_transcript fetch draw v l).fetchCalls.length = 3 ∧
      (get_transcript fetch draw v l).result = .httpError 404 (m 2)) := by
  refine ⟨?_, ?_, ?_⟩
  · simpa [get_transcript] using
      getTranscriptLoop_calls_le fetch draw v l 3 0 1 (draw 0)
  · simpa [get_transcript] using
      getTranscriptLoop_ne_fellThrough fetch draw v l 3 0 1 (draw 0)
        (by omega) (by omega)
  · intro m hf hip
    have h0 := hf 0 (draw 0) (by omega)
    have h1 := hf 1 (draw 1) (by omega)
    have h2 := hf 2 (draw 2) (by omega)
    constructor <;>
      simp [get_transcript, getTranscriptLoop, h0, h1, h2,
        hip 0 (by omega), hip 1 (by omega), hip 2 (by omega)]

/-- C1 witness: at the stub that fails every attempt with an IP-block
description, `get_transcript` makes exactly 3 calls and raises 404 with
that description. -/
theorem C1_get_transcript_bounded_terminates_witness :
    (get_transcript cFetchAllBlocked cDrawNone "v" "en").fetchCalls.length = 3 ∧
    (get_transcript cFetchAllBlocked cDrawNone "v" "en").result =
      .httpError 404 "IP address blocked" :=
  (C1_get_transcript_bounded_terminates cFetchAllBlocked cDrawNone "v" "en").2.2
    (fun _ => "IP address blocked") (fun i p _ => rfl)
    (fun i _ => by
      show strContains "IP address blocked" ipToken = true
      decide)

/-- C2: if the external fetch fails with `TranscriptsDisabled` or
`NoTranscriptFound` on the first attempt, `get_transcript` raises 404
with that failure's description after exactly one external invocation
and one proxy draw, whatever the message text (in particular even if it
contains the IP token) and with both retry attempts still available. -/
theorem C2_not_found_stops_immediately {σ : Type}
    (fetch : Nat → Option ProxyDict → FetchOutcome (List σ))
    (draw : Nat → Option ProxyDict) (v l m : String)
    (h : fetch 0 (draw 0) = .transcriptsDisabled m ∨
      fetch 0 (draw 0) = .noTranscriptFound m) :
    (get_transcript fetch draw v l).result = .httpError 404 m ∧
    (get_transcript fetch draw v l).fetchCalls = [(0, draw 0)] ∧
    (get_transcript fetch draw v l).proxyDraws = [draw 0] := by
  rcases h with h | h <;>
    simp [get_transcript, getTranscriptLoop, h]

/-- C2 witness: a stub failing with `TranscriptsDisabled` yields the 404
with its description after exactly one invocation. -/
theorem C2_not_found_stops_immediately_witness :
    (get_transcript cFetchDisabled cDrawNone "v" "en").result =
      .httpError 404 "Subtitles are disabled for this video" ∧
    (get_transcript cFetchDisabled cDrawNone "v" "en").fetchCalls =
      [(0, none)] ∧
    (get_transcript cFetchDisabled cDrawNone "v" "en").proxyDraws = [none] :=
  C2_not_found_stops_immediately cFetchDisabled cDrawNone "v" "en"
    "Subtitles are disabled for this video" (Or.inl rfl)

/-- C3 counterexample: `c3Fetch` fails attempts 0 and 1 with an IP-block
description and succeeds on attempt 2, and `c3Draw` (a legitimate
behaviour of `random.choice` over the pool) yields the same candidate on
every draw: `get_transcript` returns the success after exactly 3
invocations and 3 draws, but the 3 drawn candidates are not distinct —
the code enforces no distinctness across draws. -/
theorem C3_distinct_draws_counterexample :
    (get_transcript c3Fetch c3Draw "v" "en").result =
      .ok ⟨"v", "en", [⟨"hi", 0, 1⟩]⟩ ∧
    (get_transcript c3Fetch c3Draw "v" "en").fetchCalls.length = 3 ∧
    (get_transcript c3Fetch c3Draw "v" "en").proxyDraws.length = 3 ∧
    ¬ (get_transcript c3Fetch c3Draw "v" "en").proxyDraws.Nodup := by
  decide

/-- C3 amended: for every sequence of exactly 2 IP-block failures then a
success, `get_transcript` returns the success result, invokes the
external operation exactly 3 times (attempt `i` with the `i`-th drawn
candidate, the first included), and performs exactly 3 fresh draws from
the proxy source; the 3 drawn candidates are distinct whenever the
source's three draws return pairwise different values, which the code
itself does not enforce. -/
theorem C3_two_failures_then_success {σ : Type}
    (fetch : Nat → Option ProxyDict → FetchOutcome (List σ))
    (draw : Nat → Option ProxyDict) (v l : String) (m0 m1 : String)
    (payload : List σ)
    (h0 : ∀ p, fetch 0 p = .otherError m0)
    (h1 : ∀ p, fetch 1 p = .otherError m1)
    (h2 : ∀ p, fetch 2 p = .success payload)
    (hip0 : strContains m0 ipToken = true)
    (hip1 : strContains m1 ipToken = true) :
    (get_transcript fetch draw v l).result = .ok ⟨v, l, payload⟩ ∧
    (get_transcript fetch draw v l).fetchCalls =
      [(0, draw 0), (1, draw 1), (2, draw 2)] ∧
    (get_transcript fetch draw v l).proxyDraws = [draw 0, draw 1, draw 2] ∧
    ((draw 0 ≠ draw 1 ∧ draw 0 ≠ draw 2 ∧ draw 1 ≠ draw 2) →
      (get_transcript fetch draw v l).proxyDraws.Nodup) := by
  have ht : (get_transcript fetch draw v l).proxyDraws =
      [draw 0, draw 1, draw 2] := by
    simp [get_transcript, getTranscriptLoop, h0, h1, h2, hip0, hip1]
  refine ⟨?_, ?_, ht, ?_⟩
  · simp [get_transcript, getTranscriptLoop, h0, h1, h2, hip0, hip1]
  · simp [get_transcript, getTranscriptLoop, h0, h1, h2, hip0, hip1]
  · rintro ⟨hab, hac, hbc⟩
    rw [ht]
    refine List.nodup_cons.mpr ⟨?_, List.nodup_cons.mpr
      ⟨?_, List.nodup_singleton _⟩⟩
    · simp [List.mem_cons, hab, hac]
    · simp [hbc]

/-- C3 amended witness: at `c3Fetch` with pairwise distinct draws, the
success is returned after 3 invocations with 3 distinct candidates. -/
theorem C3_two_failures_then_success_witness :
    (get_transcript c3Fetch cDrawDistinct "v" "en").result =
      .ok ⟨"v", "en", [⟨"hi", 0, 1⟩]⟩ ∧
    (get_transcript c3Fetch cDrawDistinct "v" "en").fetchCalls =
      [(0, cDrawDistinct 0), (1, cDrawDistinct 1), (2, cDrawDistinct 2)] ∧
    (get_transcript c3Fetch cDrawDistinct "v" "en").proxyDraws =
      [cDrawDistinct 0, cDrawDistinct 1, cDrawDistinct 2] ∧
    ((cDrawDistinct 0 ≠ cDrawDistinct 1 ∧ cDrawDistinct 0 ≠ cDrawDistinct 2 ∧
        cDrawDistinct 1 ≠ cDrawDistinct 2) →
      (get_transcript c3Fetch cDrawDistinct "v" "en").proxyDraws.Nodup) :=
  C3_two_failures_then_success c3Fetch cDrawDistinct "v" "en"
    "IP address blocked" "IP address blocked" [⟨"hi", 0, 1⟩]
    (fun p => rfl) (fun p => rfl) (fun p => rfl) (by decide) (by decide)

/-- C4: inside the `get_transcript` loop, an `except Exception` failure
retries — the iteration's trace is one invocation followed by the next
attempt run with a freshly drawn candidate, which performs at least one
further external call — exactly when the error text contains the
case-sensitive IP token and the attempt index is below 2; in every other
case the loop stops at once and raises 404 carrying the error's
description. -/
theorem C4_retryable_iff_ip_and_attempts_remain {σ : Type}
    (fetch : Nat → Option ProxyDict → FetchOutcome (List σ))
    (draw : Nat → Option ProxyDict) (v l : String)
    (fuel attempt drawCount : Nat) (proxies : Option ProxyDict) (m : String)
    (hF : fetch attempt proxies = .otherError m) :
    ((strContains m ipToken = true ∧ attempt < 2) →
      getTranscriptLoop fetch draw v l (fuel + 1) attempt drawCount proxies =
        ⟨(getTranscriptLoop fetch draw v l fuel (attempt + 1) (drawCount + 1)
            (draw drawCount)).result,
          (attempt, proxies) ::
            (getTranscriptLoop fetch draw v l fuel (attempt + 1)
              (drawCount + 1) (draw drawCount)).fetchCalls,
          draw drawCount ::
            (getTranscriptLoop fetch draw v l fuel (attempt + 1)
              (drawCount + 1) (draw drawCount)).proxyDraws⟩ ∧
      (1 ≤ fuel →
        1 ≤ (getTranscriptLoop fetch draw v l fuel (attempt + 1)
          (drawCount + 1) (draw drawCount)).fetchCalls.length)) ∧
    (¬ (strContains m ipToken = true ∧ attempt < 2) →
      getTranscriptLoop fetch draw v l (fuel + 1) attempt drawCount proxies =
        ⟨.httpError 404 m, [(attempt, proxies)], []⟩) := by
  constructor
  · rintro ⟨hip, ha⟩
    constructor
    · simp [getTranscriptLoop, hF, hip, ha]
    · intro hfuel
      obtain ⟨n, rfl⟩ := Nat.exists_eq_add_of_le hfuel
      simpa [Nat.add_comm 1 n] using getTranscriptLoop_calls_pos fetch draw
        v l n (attempt + 1) (drawCount + 1) (draw drawCount)
  · intro hneg
    have hc : (strContains m ipToken && decide (attempt < 2)) = false := by
      cases hb : (strContains m ipToken && decide (attempt < 2)) with
      | false => rfl
      | true =>
        have h2 := (Bool.and_eq_true _ _).mp hb
        exact absurd ⟨h2.1, of_decide_eq_true h2.2⟩ hneg
    simp [getTranscriptLoop, hF, hc]

/-- C4 witness: an `TranscriptsDisabled`-free other error without the IP
token on attempt 0 stops at once with the 404. -/
theorem C4_retryable_iff_ip_and_attempts_remain_witness :
    getTranscriptLoop cFetchNoIp cDrawNone "v" "en" 3 0 1 none =
      ⟨.httpError 404 "connection reset", [(0, none)], []⟩ :=
  (C4_retryable_iff_ip_and_attempts_remain cFetchNoIp cDrawNone "v" "en"
    2 0 1 none "connection reset" rfl).2 (by decide)

/-- C5 counterexample: with an unchanged provider response set (one
provider answering 200 with one proxy line) and an initially empty pool,
the first `SimpleProxyManager.refresh_proxies` yields a pool of size 1
and the second a pool of size 2: the sizes after the two calls differ,
because the method appends to the pool and never clears it. -/
theorem C5_refresh_idempotent_counterexample :
    ¬ (simple_refresh_proxies c5Outcomes
        (simple_refresh_proxies c5Outcomes [])).length =
      (simple_refresh_proxies c5Outcomes []).length := by
  decide

/-- C5 amended: replace semantics holds for `ProxyManager.refresh_proxies`
of `proxy_manager.py` — refreshing twice with the same FreeProxy outcome
gives the very pool of the first refresh, hence the same size; but
`SimpleProxyManager.refresh_proxies` of `main.py` appends the parsed
candidates onto the existing pool without clearing it, so its pool grows
by the response's candidate count on every repeated call. -/
theorem C5_refresh_replace_vs_append :
    (∀ (o : FreeProxyOutcome) (pool : List String),
      pm_refresh_proxies o (pm_refresh_proxies o pool) =
        pm_refresh_proxies o pool) ∧
    (∀ (outcomes : List ProviderOutcome) (pool : List String),
      simple_refresh_proxies outcomes pool =
        pool ++ (outcomes.map providerProxies).flatten) := by
  constructor
  · intro o pool
    cases o with
    | raised m => rfl
    | ok ps =>
      by_cases h : ps = []
      · simp [pm_refresh_proxies, h]
      · simp [pm_refresh_proxies, h]
  · intro outcomes pool
    simp [simple_refresh_proxies, simpleRefreshBody_eq]

/-- C6: for both proxy managers, `get_proxy` on an empty pool triggers
exactly one refresh before answering (none when the pool is non-empty);
it returns the `None` sentinel exactly when the pool is still empty
afterwards, without raising (the embedding is a total function); and any
returned candidate is a member of the current pool, duplicated into the
`http` and `https` slots. -/
theorem C6_get_proxy_refresh_once_then_sentinel
    (outcomes : List ProviderOutcome) (o : FreeProxyOutcome) (pick : Nat)
    (pool : List String) :
    ((pool = [] → (simple_get_proxy outcomes pick pool).2.2 = 1) ∧
     (pool ≠ [] → (simple_get_proxy outcomes pick pool).2.2 = 0) ∧
     ((simple_get_proxy outcomes pick pool).1 = none ↔
       (simple_get_proxy outcomes pick pool).2.1 = []) ∧
     (∀ d, (simple_get_proxy outcomes pick pool).1 = some d →
       d.http ∈ (simple_get_proxy outcomes pick pool).2.1 ∧
       d.https = d.http)) ∧
    ((pool = [] → (pm_get_proxy o pick pool).2.2 = 1) ∧
     (pool ≠ [] → (pm_get_proxy o pick pool).2.2 = 0) ∧
     ((pm_get_proxy o pick pool).1 = none ↔
       (pm_get_proxy o pick pool).2.1 = []) ∧
     (∀ d, (pm_get_proxy o pick pool).1 = some d →
       d.http ∈ (pm_get_proxy o pick pool).2.1 ∧
       d.https = d.http)) := by
  constructor
  · by_cases hp : pool = []
    · subst hp
      cases hr : simple_refresh_proxies outcomes [] with
      | nil => simp [simple_get_proxy, hr]
      | cons q qs =>
        refine ⟨fun _ => by simp [simple_get_proxy, hr],
          fun h => absurd rfl h, by simp [simple_get_proxy, hr], ?_⟩
        intro d hd
        simp only [simple_get_proxy, eq_self_iff_true, if_true, hr] at hd ⊢
        cases hd
        exact ⟨List.get_mem _ _ _, rfl⟩
    · cases hq : pool with
      | nil => exact absurd hq hp
      | cons q qs =>
        subst hq
        refine ⟨fun h => absurd h hp, fun _ => by simp [simple_get_proxy, hp],
          by simp [simple_get_proxy, hp], ?_⟩
        intro d hd
        simp only [simple_get_proxy, if_neg hp] at hd ⊢
        cases hd
        exact ⟨List.get_mem _ _ _, rfl⟩
  · by_cases hp : pool = []
    · subst hp
      cases hr : pm_refresh_proxies o [] with
      | nil => simp [pm_get_proxy, hr]
      | cons q qs =>
        refine ⟨fun _ => by simp [pm_get_proxy, hr],
          fun h => absurd rfl h, by simp [pm_get_proxy, hr], ?_⟩
        intro d hd
        simp only [pm_get_proxy, eq_self_iff_true, if_true, hr] at hd ⊢
        cases hd
        exact ⟨List.get_mem _ _ _, rfl⟩
    · cases hq : pool with
      | nil => exact absurd hq hp
      | cons q qs =>
        subst hq
        refine ⟨fun h => absurd h hp, fun _ => by simp [pm_get_proxy, hp],
          by simp [pm_get_proxy, hp], ?_⟩
        intro d hd
        simp only [pm_get_proxy, if_neg hp] at hd ⊢
        cases hd
        exact ⟨List.get_mem _ _ _, rfl⟩

/-- C6 witness: on an empty pool with an all-failing provider set, both
managers trigger one refresh and answer the sentinel. -/
theorem C6_get_proxy_refresh_once_then_sentinel_witness :
    (simple_get_proxy [.raised "timed out"] 0 []).2.2 = 1 ∧
    (simple_get_proxy [.raised "timed out"] 0 []).1 = none ∧
    (pm_get_proxy (.raised "timed out") 0 []).2.2 = 1 ∧
    (pm_get_proxy (.raised "timed out") 0 []).1 = none := by
  have h := C6_get_proxy_refresh_once_then_sentinel [.raised "timed out"]
    (.raised "timed out") 0 []
  exact ⟨h.1.1 rfl, (h.1.2.2.1).mpr (by decide), h.2.1 rfl,
    (h.2.2.2.1).mpr (by decide)⟩

/-- C7: `list_transcripts` follows the same bounded 3-attempt skeleton
as `get_transcript` (at most 3 external calls, never ending without an
outcome), and it treats every failure class alike — for any outcome with
a failure description, `TranscriptsDisabled` and `NoTranscriptFound`
included, the iteration retries with a fresh draw when the text contains
the IP token and the attempt index is below 2, and otherwise raises 404
with that description. -/
theorem C7_list_transcripts_same_skeleton
    (fetchList : Nat → Option ProxyDict → FetchOutcome (List Transcript))
    (draw : Nat → Option ProxyDict) :
    (list_transcripts fetchList draw).fetchCalls.length ≤ 3 ∧
    (list_transcripts fetchList draw).result ≠ .fellThrough ∧
    (∀ fuel attempt drawCount (proxies : Option ProxyDict)
        (o : FetchOutcome (List Transcript)) (m : String),
      fetchList attempt proxies = o → isFailureMsg o = some m →
      listTranscriptsLoop fetchList draw (fuel + 1) attempt drawCount
          proxies =
        if strContains m ipToken && decide (attempt < 2) then
          ⟨(listTranscriptsLoop fetchList draw fuel (attempt + 1)
              (drawCount + 1) (draw drawCount)).result,
            (attempt, proxies) ::
              (listTranscriptsLoop fetchList draw fuel (attempt + 1)
                (drawCount + 1) (draw drawCount)).fetchCalls,
            draw drawCount ::
              (listTranscriptsLoop fetchList draw fuel (attempt + 1)
                (drawCount + 1) (draw drawCount)).proxyDraws⟩
        else ⟨.httpError 404 m, [(attempt, proxies)], []⟩) := by
  refine ⟨?_, ?_, ?_⟩
  · simpa [list_transcripts] using
      listTranscriptsLoop_calls_le fetchList draw 3 0 1 (draw 0)
  · simpa [list_transcripts] using
      listTranscriptsLoop_ne_fellThrough fetchList draw 3 0 1 (draw 0)
        (by omega) (by omega)
  · intro fuel attempt dc p o m ho hm
    cases o with
    | success ts => simp [isFailureMsg] at hm
    | transcriptsDisabled m2 =>
      simp only [isFailureMsg, Option.some.injEq] at hm
      subst hm
      by_cases hc : (strContains m2 ipToken && decide (attempt < 2)) = true
      · simp [listTranscriptsLoop, ho, hc]
      · simp [listTranscriptsLoop, ho, hc]
    | noTranscriptFound m2 =>
      simp only [isFailureMsg, Option.some.injEq] at hm
      subst hm
      by_cases hc : (strContains m2 ipToken && decide (attempt < 2)) = true
      · simp [listTranscriptsLoop, ho, hc]
      · simp [listTranscriptsLoop, ho, hc]
    | otherError m2 =>
      simp only [isFailureMsg, Option.some.injEq] at hm
      subst hm
      by_cases hc : (strContains m2 ipToken && decide (attempt < 2)) = true
      · simp [listTranscriptsLoop, ho, hc]
      · simp [listTranscriptsLoop, ho, hc]

/-- C7 witness: a `NoTranscriptFound`-class failure without the IP token
makes `list_transcripts` raise 404 at once — no not-found special case,
same terminal handling as any other non-IP error. -/
theorem C7_list_transcripts_same_skeleton_witness :
    (list_transcripts cListNoTranscript cDrawNone).fetchCalls.length ≤ 3 ∧
    listTranscriptsLoop cListNoTranscript cDrawNone 3 0 1 none =
      ⟨.httpError 404 "No transcripts were found", [(0, none)], []⟩ := by
  have h := C7_list_transcripts_same_skeleton cListNoTranscript cDrawNone
  refine ⟨h.1, ?_⟩
  have h2 := h.2.2 2 0 1 none (.noTranscriptFound "No transcripts were found")
    "No transcripts were found" rfl rfl
  rw [h2]
  decide

/-- C8: the end-to-end scenario — video id abc123, language en, attempt
0 failing with the text "Your IP has been blocked", attempt 1 succeeding
with the single segment (hi, 0, 1) — returns exactly that payload with
the requested video id and language echoed unchanged. -/
theorem C8_end_to_end_scenario :
    (get_transcript c8Fetch cDrawNone "abc123" "en").result =
      .ok ⟨"abc123", "en", [⟨"hi", 0, 1⟩]⟩ := by
  decide

/-- C9: `SimpleProxyManager.refresh_proxies` never raises — its provider
loop always returns normally (the outer catch is unreachable), each
provider contributes its parsed candidates independently of the other
providers' failures, a set of providers that all raise leaves the pool
exactly as it was (so a total failure yields an empty pool, not a
fault), and a raising `FreeProxy` likewise leaves
`ProxyManager.refresh_proxies`'s pool unchanged. -/
theorem C9_refresh_never_raises :
    (∀ (outcomes : List ProviderOutcome) (pool : List String),
      simpleRefreshBody outcomes pool =
        .ok (simple_refresh_proxies outcomes pool)) ∧
    (∀ (outcomes : List ProviderOutcome) (pool : List String),
      simple_refresh_proxies outcomes pool =
        pool ++ (outcomes.map providerProxies).flatten) ∧
    (∀ (outcomes : List ProviderOutcome) (pool : List String),
      (∀ o ∈ outcomes, ∃ msg, o = .raised msg) →
      simple_refresh_proxies outcomes pool = pool) ∧
    (∀ (msg : String) (pool : List String),
      pm_refresh_proxies (.raised msg) pool = pool) := by
  have hb : ∀ (outcomes : List ProviderOutcome) (pool : List String),
      simple_refresh_proxies outcomes pool =
        pool ++ (outcomes.map providerProxies).flatten := by
    intro outcomes pool
    simp [simple_refresh_proxies, simpleRefreshBody_eq]
  refine ⟨?_, hb, ?_, ?_⟩
  · intro outcomes pool
    rw [simpleRefreshBody_eq, hb]
  · intro outcomes pool hall
    have hflat : ∀ (os : List ProviderOutcome),
        (∀ o ∈ os, ∃ msg, o = .raised msg) →
        (os.map providerProxies).flatten = ([] : List String) := by
      intro os
      induction os with
      | nil => intro _; rfl
      | cons o os ih =>
        intro h
        obtain ⟨msg, rfl⟩ := h o (List.mem_cons_self _ _)
        simp [providerProxies, attemptProvider,
          ih (fun x hx => h x (List.mem_cons_of_mem _ hx))]
    rw [hb, hflat outcomes hall, List.append_nil]
  · intro msg pool
    rfl

/-- C9 witness: one raising provider leaves a non-empty pool unchanged
and returns normally. -/
theorem C9_refresh_never_raises_witness :
    simple_refresh_proxies [.raised "timed out"] ["http://a:1"] =
      ["http://a:1"] :=
  C9_refresh_never_raises.2.2.1 [.raised "timed out"] ["http://a:1"]
    (fun o ho => ⟨"timed out", by simpa using ho⟩)

/-- C10: a successful listing maps each transcript object to an entry
carrying its language, language code, generated and translatable flags,
with translation_languages the mapped (language, language_code) pairs of
the object's attribute when present and the empty list when the
attribute is absent. -/
theorem C10_metadata_fields
    (fetchList : Nat → Option ProxyDict → FetchOutcome (List Transcript))
    (draw : Nat → Option ProxyDict) (ts : List Transcript)
    (h : fetchList 0 (draw 0) = .success ts) :
    (list_transcripts fetchList draw).result = .ok (ts.map metaOfTranscript) ∧
    (∀ t : Transcript,
      (metaOfTranscript t).language = t.language ∧
      (metaOfTranscript t).language_code = t.language_code ∧
      (metaOfTranscript t).is_generated = t.is_generated ∧
      (metaOfTranscript t).is_translatable = t.is_translatable ∧
      (t.translation_languages = none →
        (metaOfTranscript t).translation_languages = []) ∧
      (∀ langs, t.translation_languages = some langs →
        (metaOfTranscript t).translation_languages =
          langs.map (fun lang => ⟨lang.language, lang.language_code⟩))) := by
  constructor
  · simp [list_transcripts, listTranscriptsLoop, h]
  · intro t
    refine ⟨rfl, rfl, rfl, rfl, ?_, ?_⟩
    · intro hnone
      simp [metaOfTranscript, hnone]
    · intro langs hsome
      simp [metaOfTranscript, hsome]

/-- C10 witness: a single transcript object without the
translation_languages attribute yields the entry with the empty list. -/
theorem C10_metadata_fields_witness :
    (list_transcripts cListOk cDrawNone).result =
      .ok [⟨"English", "en", true, false, []⟩] := by
  have h := (C10_metadata_fields cListOk cDrawNone
    [⟨"English", "en", true, false, none⟩] rfl).1
  simpa [metaOfTranscript] using h
